import Mathlib

/-!
# CFGuard monitoring engine — verification of the specification

A shallow embedding of the failover monitoring engine in
`internal/monitor/engine.go`, together with theorems settling the spec's
claims about it.

Modelling conventions:
* Go `int` is `Int` (counters and thresholds; values from external
  configuration may be zero or negative, the engine does not validate them).
* Network probes are abstracted as boolean inputs (`true` = probe success):
  the engine folds probe results into its state machine and the probe itself
  is pure I/O.  For the backup watchdog the probe is an `Option Bool`, where
  `none` models the early return when the pinger cannot even be constructed.
* Callbacks (`OnSwitch`, `OnScheduledSwitch`, `OnIPDown`) are modelled as an
  emitted list of `Event`s, in the order the Go code dispatches them.
* The engine registry (Go `map[string]*Monitor`) is a function
  `String → Option Monitor`; goroutine lifecycle (contexts, cancellation,
  tickers) is concurrency plumbing with no effect on the per-monitor state
  transitions and is not part of the embedding.
-/

namespace CFGuard

/-- `config.MonitorConfig` (the fields the engine reads). -/
structure MonitorConfig where
  id : String
  name : String
  checkType : String
  checkTarget : String
  originalIP : String
  backupIP : String
  failureThreshold : Int
  successThreshold : Int
  pingCount : Int
  interval : Int
  timeoutSeconds : Int
  scheduleEnabled : Bool
  scheduleHours : Int
  scheduleSwitchIP : String
  deriving Repr, DecidableEq

/-- `monitor.Status`: the two-valued health status. -/
inductive Status where
  | Normal
  | Down
  deriving Repr, DecidableEq

/-- `monitor.Monitor`: the mutable per-monitor record. -/
structure Monitor where
  config : MonitorConfig
  status : Status
  currentIP : String
  failCount : Int
  succCount : Int
  backupFailCount : Int
  backupDown : Bool
  deriving Repr, DecidableEq

/-- The engine's outward-facing callbacks, as emitted events. -/
inductive Event where
  | onSwitch (toBackup : Bool)
  | onScheduledSwitch (fromIP toIP : String)
  | onIPDown (ip role : String)
  deriving Repr, DecidableEq

/-- The fresh monitor built by `Engine.StartMonitor` (Go zero values for the
counters and flags). -/
def freshMonitor (cfg : MonitorConfig) : Monitor :=
  { config := cfg
    status := Status.Normal
    currentIP := cfg.originalIP
    failCount := 0
    succCount := 0
    backupFailCount := 0
    backupDown := false }

/-- `Engine.handleFailure`: a failing primary probe. -/
def handleFailure (m : Monitor) : Monitor × List Event :=
  match m.status with
  | Status.Normal =>
      let fc := m.failCount + 1
      if fc ≥ m.config.failureThreshold then
        ({ m with status := Status.Down
                  currentIP := m.config.backupIP
                  failCount := 0 },
         [Event.onIPDown m.config.originalIP "original", Event.onSwitch true])
      else
        ({ m with failCount := fc }, [])
  | Status.Down =>
      ({ m with succCount := 0 }, [])

/-- `Engine.handleSuccess`: a succeeding primary probe. -/
def handleSuccess (m : Monitor) : Monitor × List Event :=
  match m.status with
  | Status.Down =>
      let sc := m.succCount + 1
      if sc ≥ m.config.successThreshold then
        ({ m with status := Status.Normal
                  currentIP := m.config.originalIP
                  succCount := 0 },
         [Event.onSwitch false])
      else
        ({ m with succCount := sc }, [])
  | Status.Normal =>
      ({ m with failCount := 0 }, [])

/-- One primary-probe outcome fed to the state machine. -/
def probeStep (m : Monitor) (success : Bool) : Monitor × List Event :=
  if success then handleSuccess m else handleFailure m

/-- Run the state machine over a sequence of primary-probe outcomes,
collecting the events in dispatch order. -/
def runProbes (m : Monitor) : List Bool → Monitor × List Event
  | [] => (m, [])
  | b :: bs =>
      let r := probeStep m b
      let rest := runProbes r.1 bs
      (rest.1, r.2 ++ rest.2)

/-- `Engine.scheduledSwitch`: one fire of the schedule timer. -/
def scheduledSwitch (m : Monitor) : Monitor × List Event :=
  if m.status = Status.Down then (m, [])
  else
    let fromIP := m.currentIP
    let toIP :=
      if m.config.scheduleSwitchIP ≠ "" then m.config.scheduleSwitchIP
      else if fromIP = m.config.originalIP then m.config.backupIP
      else m.config.originalIP
    if toIP = "" ∨ toIP = fromIP then (m, [])
    else
      ({ m with currentIP := toIP, failCount := 0, succCount := 0 },
       [Event.onScheduledSwitch fromIP toIP])

/-- The per-monitor effect of `Engine.ForceRestore` on a registered monitor. -/
def forceRestoreMonitor (m : Monitor) : Monitor :=
  { m with status := Status.Normal
           currentIP := m.config.originalIP
           failCount := 0
           succCount := 0 }

/-- The effective backup-watchdog failure threshold
(`Engine.checkBackupHealth` defaults it to 3 when non-positive). -/
def effBackupThreshold (cfg : MonitorConfig) : Int :=
  if cfg.failureThreshold ≤ 0 then 3 else cfg.failureThreshold

/-- The gate of `Engine.checkBackupHealth`: it does anything only while the
monitor is Down, the check type is the ping check, and a backup IP is set. -/
def backupWatchdogActive (m : Monitor) : Prop :=
  m.status = Status.Down ∧ m.config.checkType = "ping" ∧ m.config.backupIP ≠ ""

instance (m : Monitor) : Decidable (backupWatchdogActive m) := by
  unfold backupWatchdogActive; infer_instance

/-- `Engine.checkBackupHealth`.  `probe = none` models the early return when
the pinger cannot be constructed; `some true` a run with packet loss < 60%;
`some false` a run error or packet loss ≥ 60%. -/
def checkBackupHealth (m : Monitor) (probe : Option Bool) : Monitor × List Event :=
  if ¬ backupWatchdogActive m then (m, [])
  else
    match probe with
    | none => (m, [])
    | some true =>
        ({ m with backupFailCount := 0, backupDown := false }, [])
    | some false =>
        let fc := m.backupFailCount + 1
        if fc ≥ effBackupThreshold m.config ∧ ¬ m.backupDown then
          ({ m with backupDown := true, backupFailCount := 0 },
           [Event.onIPDown m.config.backupIP "backup"])
        else
          ({ m with backupFailCount := fc }, [])

/-- Run the backup watchdog over a sequence of backup-probe outcomes. -/
def runWatchdog (m : Monitor) : List (Option Bool) → Monitor × List Event
  | [] => (m, [])
  | p :: ps =>
      let r := checkBackupHealth m p
      let rest := runWatchdog r.1 ps
      (rest.1, r.2 ++ rest.2)

/-- The three probe kinds the engine can dispatch to. -/
inductive ProbeKind where
  | ping
  | tcp
  | http
  deriving Repr, DecidableEq

/-- The check-type dispatch of `Engine.check`: Go's
`switch m.Config.CheckType` with cases `"http", "https"`, `"tcping"` and a
`default` falling back to the ping probe. -/
def selectProbe (checkType : String) : ProbeKind :=
  if checkType = "http" ∨ checkType = "https" then ProbeKind.http
  else if checkType = "tcping" then ProbeKind.tcp
  else ProbeKind.ping

/-- `Engine.check`: one tick.  `probeResult` abstracts the probers (one
boolean per probe kind for this tick), `backupProbe` the watchdog's own
probe.  Exactly one primary probe is performed, selected by the configured
check type; its result goes through the success/failure handlers, then the
backup watchdog runs. -/
def check (m : Monitor) (probeResult : ProbeKind → Bool)
    (backupProbe : Option Bool) : Monitor × List Event :=
  let r := probeStep m (probeResult (selectProbe m.config.checkType))
  let r2 := checkBackupHealth r.1 backupProbe
  (r2.1, r.2 ++ r2.2)

/-- The engine registry: Go's `map[string]*Monitor`. -/
structure Engine where
  monitors : String → Option Monitor

/-- `Engine.StartMonitor`: replaces any monitor registered under `cfg.id`
with a fresh one (the previous instance's loops are cancelled — concurrency
plumbing outside the embedding — and the registry entry is overwritten). -/
def StartMonitor (e : Engine) (cfg : MonitorConfig) : Engine :=
  { monitors := fun j => if j = cfg.id then some (freshMonitor cfg) else e.monitors j }

/-- `Engine.ForceRestore`: returns `(fromIP, ok)` and the updated engine. -/
def ForceRestore (e : Engine) (id : String) : (String × Bool) × Engine :=
  match e.monitors id with
  | none => (("", false), e)
  | some m =>
      ((m.currentIP, true),
       { monitors := fun j => if j = id then some (forceRestoreMonitor m) else e.monitors j })

/-- The target IP a scheduled-switch fire computes, in the spec's words: the
explicit configured switch-to IP if non-empty, otherwise the backup IP when
`currentIP` equals the primary IP and the primary IP otherwise. -/
def computedTarget (m : Monitor) : String :=
  if m.config.scheduleSwitchIP ≠ "" then m.config.scheduleSwitchIP
  else if m.currentIP = m.config.originalIP then m.config.backupIP
  else m.config.originalIP

/-- Concrete configuration used by the closed witness theorems. -/
def cfgA : MonitorConfig :=
  { id := "m1"
    name := "web"
    checkType := "ping"
    checkTarget := ""
    originalIP := "1.1.1.1"
    backupIP := "2.2.2.2"
    failureThreshold := 3
    successThreshold := 2
    pingCount := 5
    interval := 60
    timeoutSeconds := 2
    scheduleEnabled := false
    scheduleHours := 0
    scheduleSwitchIP := "" }

/-- A concrete monitor in the Down state, for the witness theorems. -/
def monA : Monitor :=
  { config := cfgA
    status := Status.Down
    currentIP := "2.2.2.2"
    failCount := 0
    succCount := 1
    backupFailCount := 2
    backupDown := true }

/-- A concrete engine with `monA` registered under id `"m1"`. -/
def engA : Engine :=
  { monitors := fun j => if j = "m1" then some monA else none }

/-- An empty engine. -/
def engEmpty : Engine := { monitors := fun _ => none }

/-- C3: a scheduled-switch fire is a complete no-op while Down, and whenever
the computed target is empty or equals `currentIP`; otherwise it sets
`currentIP` to the computed target, zeroes both counters, leaves the status
(and everything else) unchanged, and fires the scheduled-switch event with
the old and new IP. -/
theorem scheduledSwitch_fire_spec (m : Monitor) :
    (m.status = Status.Down → scheduledSwitch m = (m, [])) ∧
    (m.status = Status.Normal →
      (computedTarget m = "" ∨ computedTarget m = m.currentIP) →
      scheduledSwitch m = (m, [])) ∧
    (m.status = Status.Normal →
      computedTarget m ≠ "" → computedTarget m ≠ m.currentIP →
      scheduledSwitch m =
        ({ m with currentIP := computedTarget m, failCount := 0, succCount := 0 },
         [Event.onScheduledSwitch m.currentIP (computedTarget m)])) := by
  refine ⟨fun h => by simp [scheduledSwitch, h], fun h hno => ?_, fun h h1 h2 => ?_⟩
  · simp only [scheduledSwitch, h, computedTarget] at hno ⊢
    simp only [reduceCtorEq, if_false]
    rw [if_pos hno]
  · simp only [scheduledSwitch, h, computedTarget] at h1 h2 ⊢
    simp only [reduceCtorEq, if_false]
    rw [if_neg (by tauto)]

/-- Witness for C3 at a concrete Normal monitor whose computed target is the
backup IP. -/
theorem scheduledSwitch_fire_spec_witness :
    (freshMonitor cfgA).status = Status.Normal ∧
    computedTarget (freshMonitor cfgA) ≠ "" ∧
    computedTarget (freshMonitor cfgA) ≠ (freshMonitor cfgA).currentIP ∧
    scheduledSwitch (freshMonitor cfgA) =
      ({ freshMonitor cfgA with
          currentIP := computedTarget (freshMonitor cfgA)
          failCount := 0
          succCount := 0 },
       [Event.onScheduledSwitch (freshMonitor cfgA).currentIP
          (computedTarget (freshMonitor cfgA))]) :=
  ⟨by decide, by decide, by decide,
   (scheduledSwitch_fire_spec (freshMonitor cfgA)).2.2 (by decide) (by decide) (by decide)⟩

/-- C4: `ForceRestore` on a registered monitor returns the pre-call
`currentIP` with `ok = true`, and leaves the monitor in `Normal` at the
primary IP with both counters zeroed, regardless of its prior state. -/
theorem forceRestore_registered (e : Engine) (id : String) (m : Monitor)
    (h : e.monitors id = some m) :
    (ForceRestore e id).1 = (m.currentIP, true) ∧
    (ForceRestore e id).2.monitors id =
      some { m with status := Status.Normal
                    currentIP := m.config.originalIP
                    failCount := 0
                    succCount := 0 } := by
  simp [ForceRestore, h, forceRestoreMonitor]

/-- Witness for C4: a concrete engine holding a Down monitor. -/
theorem forceRestore_registered_witness :
    engA.monitors "m1" = some monA ∧
    ((ForceRestore engA "m1").1 = (monA.currentIP, true) ∧
     (ForceRestore engA "m1").2.monitors "m1" =
       some { monA with status := Status.Normal
                        currentIP := monA.config.originalIP
                        failCount := 0
                        succCount := 0 }) :=
  ⟨by decide, forceRestore_registered engA "m1" monA (by decide)⟩

/-- C10: `ForceRestore` on an unregistered id returns `("", false)` and the
engine — every registered monitor's state included — is unchanged. -/
theorem forceRestore_unknown (e : Engine) (id : String)
    (h : e.monitors id = none) :
    ForceRestore e id = (("", false), e) := by
  simp [ForceRestore, h]

/-- Witness for C10: an id absent from a concrete engine. -/
theorem forceRestore_unknown_witness :
    engA.monitors "nope" = none ∧
    ForceRestore engA "nope" = (("", false), engA) :=
  ⟨by decide, forceRestore_unknown engA "nope" (by decide)⟩

/-- C5: `StartMonitor` registers under `cfg.id` a fresh monitor in `Normal`
state at the primary IP with all counters zero and `backupDown = false`,
discarding whatever monitor (in whatever state) was registered there before,
and leaves every other id untouched; since the engine `e` is arbitrary, the
second of two calls with the same id resets the entry to this clean baseline
even if the first instance had reached Down. -/
theorem startMonitor_fresh_baseline (e : Engine) (cfg : MonitorConfig) :
    (StartMonitor e cfg).monitors cfg.id = some (freshMonitor cfg) ∧
    (freshMonitor cfg).status = Status.Normal ∧
    (freshMonitor cfg).currentIP = cfg.originalIP ∧
    (freshMonitor cfg).failCount = 0 ∧
    (freshMonitor cfg).succCount = 0 ∧
    (freshMonitor cfg).backupFailCount = 0 ∧
    (freshMonitor cfg).backupDown = false ∧
    (∀ j, j ≠ cfg.id → (StartMonitor e cfg).monitors j = e.monitors j) := by
  refine ⟨by simp [StartMonitor], rfl, rfl, rfl, rfl, rfl, rfl, fun j hj => ?_⟩
  simp [StartMonitor, hj]

/-- Witness for C5: restarting over an engine whose monitor had reached Down
yields the clean baseline. -/
theorem startMonitor_fresh_baseline_witness :
    (StartMonitor engA cfgA).monitors "m1" = some (freshMonitor cfgA) ∧
    "m2" ≠ cfgA.id ∧
    (StartMonitor engA cfgA).monitors "m2" = engA.monitors "m2" :=
  ⟨(startMonitor_fresh_baseline engA cfgA).1,
   by decide,
   (startMonitor_fresh_baseline engA cfgA).2.2.2.2.2.2.2 "m2" (by decide)⟩

/-- C7: each tick performs exactly one primary probe, selected by the
configured check type: the tcp variant tag (`"tcping"`) gets the
tcp-connect probe, `"http"`/`"https"` get the HTTP GET probe, and every
other string — the empty (unset) one included — defaults to the ping probe;
`check` depends on the probe oracle only at that one selected probe. -/
theorem check_dispatch_spec :
    selectProbe "tcping" = ProbeKind.tcp ∧
    selectProbe "http" = ProbeKind.http ∧
    selectProbe "https" = ProbeKind.http ∧
    selectProbe "" = ProbeKind.ping ∧
    (∀ s : String, s ≠ "http" → s ≠ "https" → s ≠ "tcping" →
      selectProbe s = ProbeKind.ping) ∧
    (∀ (m : Monitor) (pr pr2 : ProbeKind → Bool) (bp : Option Bool),
      pr (selectProbe m.config.checkType) = pr2 (selectProbe m.config.checkType) →
      check m pr bp = check m pr2 bp) := by
  refine ⟨rfl, rfl, rfl, rfl, fun s h1 h2 h3 => ?_, fun m pr pr2 bp h => ?_⟩
  · simp [selectProbe, h1, h2, h3]
  · simp only [check, h]

/-- Witness for C7: the literal string `"tcp"` is not a recognised tag and
falls back to the ping probe; the oracle-dependence conjunct at a concrete
monitor. -/
theorem check_dispatch_spec_witness :
    selectProbe "tcp" = ProbeKind.ping ∧
    check monA (fun _ => true) none = check monA (fun _ => true) none :=
  ⟨check_dispatch_spec.2.2.2.2.1 "tcp" (by decide) (by decide) (by decide),
   check_dispatch_spec.2.2.2.2.2 monA (fun _ => true) (fun _ => true) none rfl⟩

/-! ### C1: the hysteresis state machine refines the spec's streak machine -/

/-- The claim's state machine, written from the spec's words: `failCount`
and `succCount` hold the current consecutive streak of the gated signal; a
Normal monitor moves to Down exactly when the fail streak reaches
`failureThreshold` (a success resets the streak), firing the endpoint-down
event for the primary and the failover event with `toBackup = true`, setting
`currentIP` to the backup IP and the streak to 0; a Down monitor moves to
Normal exactly when the success streak reaches `successThreshold` (a failure
resets it), setting `currentIP` to the primary IP, the streak to 0, and
firing the failover event with `toBackup = false`. -/
def specStep (m : Monitor) (success : Bool) : Monitor × List Event :=
  match m.status, success with
  | Status.Normal, false =>
      if m.failCount + 1 = m.config.failureThreshold then
        ({ m with status := Status.Down
                  currentIP := m.config.backupIP
                  failCount := 0 },
         [Event.onIPDown m.config.originalIP "original", Event.onSwitch true])
      else
        ({ m with failCount := m.failCount + 1 }, [])
  | Status.Normal, true =>
      ({ m with failCount := 0 }, [])
  | Status.Down, true =>
      if m.succCount + 1 = m.config.successThreshold then
        ({ m with status := Status.Normal
                  currentIP := m.config.originalIP
                  succCount := 0 },
         [Event.onSwitch false])
      else
        ({ m with succCount := m.succCount + 1 }, [])
  | Status.Down, false =>
      ({ m with succCount := 0 }, [])

/-- Run of the claim's streak machine over a probe-outcome sequence. -/
def specRun (m : Monitor) : List Bool → Monitor × List Event
  | [] => (m, [])
  | b :: bs =>
      let r := specStep m b
      let rest := specRun r.1 bs
      (rest.1, r.2 ++ rest.2)

/-- Both counters are strictly below their thresholds. -/
def CounterInv (m : Monitor) : Prop :=
  m.failCount < m.config.failureThreshold ∧
  m.succCount < m.config.successThreshold

/-- A probe step never changes the configuration. -/
theorem probeStep_config (m : Monitor) (b : Bool) :
    (probeStep m b).1.config = m.config := by
  cases b <;> cases hs : m.status <;>
    simp [probeStep, handleFailure, handleSuccess, hs] <;> split <;> simp

/-- Below the thresholds, the code's step agrees with the claim's streak
machine: reaching the threshold (`≥` in the code) is then the same as
hitting it exactly. -/
theorem probeStep_eq_specStep (m : Monitor) (b : Bool) (h : CounterInv m) :
    probeStep m b = specStep m b := by
  obtain ⟨h1, h2⟩ := h
  cases b <;> cases hs : m.status <;>
    simp [probeStep, handleFailure, handleSuccess, specStep, hs]
  · by_cases hc : m.failCount + 1 ≥ m.config.failureThreshold
    · rw [if_pos hc, if_pos (by omega)]
    · rw [if_neg hc, if_neg (by omega)]
  · by_cases hc : m.succCount + 1 ≥ m.config.successThreshold
    · rw [if_pos hc, if_pos (by omega)]
    · rw [if_neg hc, if_neg (by omega)]

/-- With positive thresholds, a probe step preserves `CounterInv`. -/
theorem probeStep_counterInv (m : Monitor) (b : Bool)
    (hf : 1 ≤ m.config.failureThreshold) (hs : 1 ≤ m.config.successThreshold)
    (h : CounterInv m) : CounterInv (probeStep m b).1 := by
  obtain ⟨h1, h2⟩ := h
  unfold CounterInv
  cases b <;> cases hst : m.status <;>
    simp [probeStep, handleFailure, handleSuccess, hst] <;>
    first
      | omega
      | (split <;> simp <;> omega)

/-- Run-level agreement from any state satisfying `CounterInv`. -/
theorem runProbes_eq_specRun (tr : List Bool) (m : Monitor)
    (hf : 1 ≤ m.config.failureThreshold) (hs : 1 ≤ m.config.successThreshold)
    (h : CounterInv m) : runProbes m tr = specRun m tr := by
  induction tr generalizing m with
  | nil => rfl
  | cons b bs ih =>
      have he := probeStep_eq_specStep m b h
      have hinv := probeStep_counterInv m b hf hs h
      have hcfg := probeStep_config m b
      simp only [runProbes, specRun, ← he]
      rw [ih (probeStep m b).1 (hcfg ▸ hf) (hcfg ▸ hs) hinv]

/-- C1: for positive thresholds, the monitor state machine started fresh
behaves, on every probe-outcome sequence, exactly as the spec's
consecutive-streak machine `specStep` — same states, same transitions, same
events in the same order. -/
theorem monitor_refines_streak_machine (cfg : MonitorConfig)
    (hf : 1 ≤ cfg.failureThreshold) (hs : 1 ≤ cfg.successThreshold)
    (tr : List Bool) :
    runProbes (freshMonitor cfg) tr = specRun (freshMonitor cfg) tr :=
  runProbes_eq_specRun tr (freshMonitor cfg) hf hs ⟨by simpa [freshMonitor] using hf, by simpa [freshMonitor] using hs⟩

/-- Witness for C1: the spec's own scenario — thresholds 3/2, three failures
then fail, success, success. -/
theorem monitor_refines_streak_machine_witness :
    1 ≤ cfgA.failureThreshold ∧ 1 ≤ cfgA.successThreshold ∧
    runProbes (freshMonitor cfgA) [false, false, false, false, true, true] =
      specRun (freshMonitor cfgA) [false, false, false, false, true, true] :=
  ⟨by decide, by decide,
   monitor_refines_streak_machine cfgA (by decide) (by decide)
     [false, false, false, false, true, true]⟩

/-! ### C8: only the counter gated by the current status is non-zero -/

/-- The operations that touch a monitor's health state: one probe outcome,
one scheduled-switch timer fire, one `ForceRestore`. -/
inductive MonOp where
  | probe (success : Bool)
  | schedFire
  | restore
  deriving Repr, DecidableEq

/-- Apply one operation to a monitor (events dropped). -/
def applyOp (m : Monitor) : MonOp → Monitor
  | MonOp.probe b => (probeStep m b).1
  | MonOp.schedFire => (scheduledSwitch m).1
  | MonOp.restore => forceRestoreMonitor m

/-- Run a sequence of operations from a monitor state. -/
def runOps (m : Monitor) (ops : List MonOp) : Monitor := ops.foldl applyOp m

/-- The gating invariant: the counter not gated by the current status is 0. -/
def GatedInv (m : Monitor) : Prop :=
  (m.status = Status.Normal → m.succCount = 0) ∧
  (m.status = Status.Down → m.failCount = 0)

/-- Every operation preserves the gating invariant. -/
theorem applyOp_gatedInv (m : Monitor) (op : MonOp) (h : GatedInv m) :
    GatedInv (applyOp m op) := by
  obtain ⟨h1, h2⟩ := h
  unfold GatedInv
  cases op with
  | probe b =>
      cases b <;> cases hst : m.status <;>
        simp [applyOp, probeStep, handleFailure, handleSuccess, hst] <;>
        (try split) <;> simp_all
  | schedFire =>
      cases hst : m.status <;>
        simp [applyOp, scheduledSwitch, hst] <;>
        (try split_ifs) <;> simp_all
  | restore =>
      simp [applyOp, forceRestoreMonitor]

/-- The gating invariant holds along any run. -/
theorem runOps_gatedInv (ops : List MonOp) (m : Monitor) (h : GatedInv m) :
    GatedInv (runOps m ops) := by
  induction ops generalizing m with
  | nil => exact h
  | cons op ops ih => exact ih (applyOp m op) (applyOp_gatedInv m op h)

/-- C8: in every state reachable from a freshly started monitor by probe
outcomes, scheduled-switch fires and ForceRestore calls, `succCount = 0`
whenever the status is Normal and `failCount = 0` whenever it is Down. -/
theorem counters_gated_by_status (cfg : MonitorConfig) (ops : List MonOp) :
    ((runOps (freshMonitor cfg) ops).status = Status.Normal →
      (runOps (freshMonitor cfg) ops).succCount = 0) ∧
    ((runOps (freshMonitor cfg) ops).status = Status.Down →
      (runOps (freshMonitor cfg) ops).failCount = 0) :=
  runOps_gatedInv ops (freshMonitor cfg) ⟨fun _ => rfl, fun _ => rfl⟩

/-- Witness for C8: after three failures (threshold 3) the monitor is Down
and its `failCount` is 0. -/
theorem counters_gated_by_status_witness :
    (runOps (freshMonitor cfgA)
      [MonOp.probe false, MonOp.probe false, MonOp.probe false]).status = Status.Down ∧
    (runOps (freshMonitor cfgA)
      [MonOp.probe false, MonOp.probe false, MonOp.probe false]).failCount = 0 :=
  ⟨by decide,
   (counters_gated_by_status cfgA
      [MonOp.probe false, MonOp.probe false, MonOp.probe false]).2 (by decide)⟩

/-! ### C6: the backup watchdog fires at most once per down-episode -/

/-- A watchdog evaluation that emits an event leaves `backupDown = true`. -/
theorem checkBackupHealth_event_sets_down (m : Monitor) (p : Option Bool)
    (h : (checkBackupHealth m p).2 ≠ []) :
    (checkBackupHealth m p).1.backupDown = true := by
  by_cases ha : backupWatchdogActive m
  · cases p with
    | none => simp [checkBackupHealth, ha] at h
    | some b =>
        cases b
        · simp only [checkBackupHealth, ha, not_true_eq_false, if_false] at h ⊢
          split at h <;> simp_all
        · simp [checkBackupHealth, ha] at h
  · simp [checkBackupHealth, ha] at h

/-- A watchdog evaluation without a successful probe keeps `backupDown`
once it is set, and emits nothing while it is set. -/
theorem checkBackupHealth_down_silent (m : Monitor) (p : Option Bool)
    (hd : m.backupDown = true) (hp : p ≠ some true) :
    (checkBackupHealth m p).1.backupDown = true ∧
    (checkBackupHealth m p).2 = [] := by
  by_cases ha : backupWatchdogActive m
  · cases p with
    | none => simp [checkBackupHealth, ha, hd]
    | some b =>
        cases b
        · simp only [checkBackupHealth, ha, not_true_eq_false, if_false]
          rw [if_neg (by simp [hd])]
          simp [hd]
        · simp at hp
  · simp [checkBackupHealth, ha, hd]

/-- Once `backupDown` is set, a success-free run of the watchdog emits no
event at all. -/
theorem runWatchdog_down_silent (ps : List (Option Bool)) (m : Monitor)
    (hd : m.backupDown = true) (hp : some true ∉ ps) :
    (runWatchdog m ps).2 = [] := by
  induction ps generalizing m with
  | nil => rfl
  | cons p ps ih =>
      have hp1 : p ≠ some true := by
        intro hc; exact hp (by simp [hc])
      have hstep := checkBackupHealth_down_silent m p hd hp1
      simp only [runWatchdog, hstep.2, List.nil_append]
      exact ih (checkBackupHealth m p).1 hstep.1 (fun hc => hp (by simp [hc]))

/-- In a success-free run of the watchdog, at most one event is emitted. -/
theorem runWatchdog_at_most_once (ps : List (Option Bool)) (m : Monitor)
    (hp : some true ∉ ps) : (runWatchdog m ps).2.length ≤ 1 := by
  induction ps generalizing m with
  | nil => simp [runWatchdog]
  | cons p ps ih =>
      have hp1 : some true ∉ ps := fun hc => hp (by simp [hc])
      by_cases he : (checkBackupHealth m p).2 = []
      · simp only [runWatchdog, he, List.nil_append]
        exact ih (checkBackupHealth m p).1 hp1
      · have hd := checkBackupHealth_event_sets_down m p he
        have hsil := runWatchdog_down_silent ps (checkBackupHealth m p).1 hd hp1
        have hlen : (checkBackupHealth m p).2.length ≤ 1 := by
          by_cases ha : backupWatchdogActive m
          · cases p with
            | none => simp [checkBackupHealth, ha]
            | some b =>
                cases b
                · simp only [checkBackupHealth, ha, not_true_eq_false, if_false]
                  split <;> simp
                · simp [checkBackupHealth, ha]
          · simp [checkBackupHealth, ha]
        simp only [runWatchdog, hsil, List.length_append, List.length_nil]
        omega

/-- C6: the backup watchdog (i) does nothing unless the monitor is Down with
the ping check type and a configured backup IP; (ii) on a successful backup
probe resets `backupFailCount` to 0 and `backupDown` to false without firing
anything; (iii) fires the endpoint-down event for the backup role exactly
when the incremented fail count reaches the (defaulted) failure threshold
while `backupDown` is false, then setting `backupDown := true` and
`backupFailCount := 0`; (iv) otherwise — below the threshold, or while
`backupDown` is already set — only increments the counter and fires nothing;
and (v) over any success-free evaluation sequence it fires at most once. -/
theorem backup_watchdog_spec (m : Monitor) (p : Option Bool)
    (ps : List (Option Bool)) :
    (¬ backupWatchdogActive m → checkBackupHealth m p = (m, [])) ∧
    (backupWatchdogActive m →
      checkBackupHealth m (some true) =
        ({ m with backupFailCount := 0, backupDown := false }, [])) ∧
    (backupWatchdogActive m →
      m.backupFailCount + 1 ≥ effBackupThreshold m.config → m.backupDown = false →
      checkBackupHealth m (some false) =
        ({ m with backupDown := true, backupFailCount := 0 },
         [Event.onIPDown m.config.backupIP "backup"])) ∧
    (backupWatchdogActive m →
      (m.backupFailCount + 1 < effBackupThreshold m.config ∨ m.backupDown = true) →
      checkBackupHealth m (some false) =
        ({ m with backupFailCount := m.backupFailCount + 1 }, [])) ∧
    (some true ∉ ps → (runWatchdog m ps).2.length ≤ 1) := by
  refine ⟨fun ha => by simp [checkBackupHealth, ha],
          fun ha => by simp [checkBackupHealth, ha],
          fun ha hth hnd => ?_,
          fun ha hno => ?_,
          fun hp => runWatchdog_at_most_once ps m hp⟩
  · simp only [checkBackupHealth, ha, not_true_eq_false, if_false]
    rw [if_pos ⟨hth, by simp [hnd]⟩]
  · simp only [checkBackupHealth, ha, not_true_eq_false, if_false]
    rw [if_neg (by rcases hno with h | h <;> simp [h])]

/-- Witness for C6: a Down ping monitor with a configured backup whose
third consecutive backup failure (threshold 3) fires the backup-down event;
the run `[fail, fail, fail, fail]` emits exactly one event. -/
theorem backup_watchdog_spec_witness :
    backupWatchdogActive monA ∧
    (monA.backupFailCount + 1 ≥ effBackupThreshold monA.config ∧
     (runWatchdog { monA with backupDown := false }
        [some false, some false, some false, some false]).2.length ≤ 1) :=
  ⟨by decide,
   ⟨by decide,
    (backup_watchdog_spec { monA with backupDown := false } none
       [some false, some false, some false, some false]).2.2.2.2 (by decide)⟩⟩

/-! ### C2 (corrected): backup flags are NOT reset when status leaves Down -/

/-- Counterexample to C2: `monA` is Down with `succCount = 1`,
`successThreshold = 2`, `backupFailCount = 2` and `backupDown = true`; one
succeeding probe restores it to Normal, yet `backupFailCount` is still 2
and `backupDown` still true — likewise after `ForceRestore`. -/
theorem backup_flags_survive_restore_cex :
    monA.status = Status.Down ∧
    (handleSuccess monA).1.status = Status.Normal ∧
    (handleSuccess monA).1.backupDown = true ∧
    (handleSuccess monA).1.backupFailCount = 2 ∧
    (forceRestoreMonitor monA).status = Status.Normal ∧
    (forceRestoreMonitor monA).backupDown = true ∧
    (forceRestoreMonitor monA).backupFailCount = 2 := by decide

/-- C2 as amended: the operations that move status out of Down — the
Down-to-Normal restore transition and `ForceRestore` — leave
`backupFailCount` and `backupDown` exactly as they were; only a successful
backup-watchdog probe (or registering a fresh monitor) resets them. -/
theorem backup_flags_unchanged_on_restore (m : Monitor) :
    (handleSuccess m).1.backupFailCount = m.backupFailCount ∧
    (handleSuccess m).1.backupDown = m.backupDown ∧
    (forceRestoreMonitor m).backupFailCount = m.backupFailCount ∧
    (forceRestoreMonitor m).backupDown = m.backupDown := by
  cases hs : m.status <;>
    simp [handleSuccess, forceRestoreMonitor, hs] <;>
    (try split) <;> simp

/-! ### C9 (corrected): the two-fire round-trip needs a non-empty primary -/

/-- A schedule-enabled configuration whose primary IP is empty: the
round-trip claim fails on it. -/
def cfgC9 : MonitorConfig :=
  { cfgA with originalIP := "", scheduleEnabled := true, scheduleHours := 1 }

/-- Counterexample to C9: with an empty primary IP (scheduling enabled, no
explicit switch IP, Normal status, backup `"2.2.2.2"` distinct from the
primary, `currentIP = primary`), the first fire does switch to the backup,
but the second fire computes the empty primary as target and is a no-op:
`currentIP` stays on the backup and no event fires. -/
theorem scheduled_roundtrip_cex :
    cfgC9.scheduleEnabled = true ∧
    cfgC9.scheduleSwitchIP = "" ∧
    cfgC9.backupIP ≠ "" ∧
    cfgC9.backupIP ≠ cfgC9.originalIP ∧
    (freshMonitor cfgC9).status = Status.Normal ∧
    (freshMonitor cfgC9).currentIP = cfgC9.originalIP ∧
    (scheduledSwitch (freshMonitor cfgC9)).1.currentIP = cfgC9.backupIP ∧
    (scheduledSwitch (freshMonitor cfgC9)).1.status = Status.Normal ∧
    (scheduledSwitch (scheduledSwitch (freshMonitor cfgC9)).1).1.currentIP
      ≠ cfgC9.originalIP ∧
    (scheduledSwitch (scheduledSwitch (freshMonitor cfgC9)).1).2 = [] := by
  decide

/-- C9 as amended: with scheduling enabled, no explicit switch-to IP, Normal
status, a configured backup IP distinct from a NON-EMPTY primary IP, and
`currentIP = primary`, one fire moves `currentIP` to the backup firing the
scheduled-switch event `(primary, backup)`, and a second fire (status still
Normal) moves it back to the primary firing `(backup, primary)`. -/
theorem scheduled_roundtrip (m : Monitor)
    (hen : m.config.scheduleEnabled = true)
    (hsw : m.config.scheduleSwitchIP = "")
    (hst : m.status = Status.Normal)
    (hb : m.config.backupIP ≠ "")
    (hp : m.config.originalIP ≠ "")
    (hne : m.config.backupIP ≠ m.config.originalIP)
    (hcur : m.currentIP = m.config.originalIP) :
    scheduledSwitch m =
      ({ m with currentIP := m.config.backupIP, failCount := 0, succCount := 0 },
       [Event.onScheduledSwitch m.config.originalIP m.config.backupIP]) ∧
    scheduledSwitch (scheduledSwitch m).1 =
      ({ m with currentIP := m.config.originalIP, failCount := 0, succCount := 0 },
       [Event.onScheduledSwitch m.config.backupIP m.config.originalIP]) := by
  have h1 : scheduledSwitch m =
      ({ m with currentIP := m.config.backupIP, failCount := 0, succCount := 0 },
       [Event.onScheduledSwitch m.config.originalIP m.config.backupIP]) := by
    simp [scheduledSwitch, hst, hsw, hcur, hb, hne]
  refine ⟨h1, ?_⟩
  rw [h1]
  simp [scheduledSwitch, hst, hsw, hb, hp, hne, Ne.symm hne]

/-- A concrete schedule-enabled configuration with a non-empty primary. -/
def cfgS : MonitorConfig :=
  { cfgA with scheduleEnabled := true, scheduleHours := 6 }

/-- Witness for the amended C9 at the concrete configuration `cfgS`. -/
theorem scheduled_roundtrip_witness :
    ((freshMonitor cfgS).config.scheduleEnabled = true ∧
     (freshMonitor cfgS).config.scheduleSwitchIP = "" ∧
     (freshMonitor cfgS).status = Status.Normal ∧
     (freshMonitor cfgS).config.backupIP ≠ "" ∧
     (freshMonitor cfgS).config.originalIP ≠ "" ∧
     (freshMonitor cfgS).config.backupIP ≠ (freshMonitor cfgS).config.originalIP ∧
     (freshMonitor cfgS).currentIP = (freshMonitor cfgS).config.originalIP) ∧
    (scheduledSwitch (freshMonitor cfgS) =
      ({ freshMonitor cfgS with
          currentIP := (freshMonitor cfgS).config.backupIP
          failCount := 0
          succCount := 0 },
       [Event.onScheduledSwitch (freshMonitor cfgS).config.originalIP
          (freshMonitor cfgS).config.backupIP]) ∧
     scheduledSwitch (scheduledSwitch (freshMonitor cfgS)).1 =
      ({ freshMonitor cfgS with
          currentIP := (freshMonitor cfgS).config.originalIP
          failCount := 0
          succCount := 0 },
       [Event.onScheduledSwitch (freshMonitor cfgS).config.backupIP
          (freshMonitor cfgS).config.originalIP])) :=
  ⟨⟨by decide, by decide, by decide, by decide, by decide, by decide, by decide⟩,
   scheduled_roundtrip (freshMonitor cfgS) (by decide) (by decide) (by decide)
     (by decide) (by decide) (by decide) (by decide)⟩

end CFGuard
